import Mathlib

/-!
Verification of the usePopcorn movie search / watchlist application.

This file gives a shallow embedding of the state-management core of the
application (the `useMovies` search controller in `src/useMovies.js` and the
watchlist handlers and aggregator in `src/App.js`) and proves the specified
properties about it.  Numbers are modelled as rationals; JavaScript `NaN`
(which can only arise here from coercing a non-numeric string) is modelled
as `Option.none` of the string-to-number coercion.
-/

namespace UsePopcorn

/-- A movie summary as returned by the catalog search endpoint
(`data.Search` elements in `src/useMovies.js`). -/
structure MovieSummary where
  imdbID : String
  Title : String
  Year : String
  Poster : String
deriving DecidableEq

/-- The three pieces of state owned by the `useMovies` hook
(`src/useMovies.js` lines 7-9): `movies`, `isLoading`, `error`. -/
structure SearchState where
  movies : List MovieSummary
  isLoading : Bool
  error : String
deriving DecidableEq

/-- The initial hook state: `useState([])`, `useState(false)`, `useState("")`. -/
def initialSearchState : SearchState :=
  { movies := [], isLoading := false, error := "" }

/-- The message thrown in `src/useMovies.js` line 31 when the transport
response is not OK. -/
def transportErrorMessage : String := "Something went wrong while fetching movies"

/-- The message thrown in `src/useMovies.js` line 36 when the payload's
`Response` field is `"False"`. -/
def notFoundMessage : String := "Movie not found"

/-- The possible resolutions of one awaited fetch in `fetchMovies`
(`src/useMovies.js` lines 25-36): the transport response was not OK, a JSON
payload arrived carrying a `Response` field and a `Search` list, or the
fetch was aborted by the cleanup's `controller.abort()` and rejected with
an `AbortError`. -/
inductive FetchOutcome where
  | httpNotOk
  | payload (response : String) (search : List MovieSummary)
  | aborted
deriving DecidableEq

/-- The continuation of `fetchMovies` after its `await` resolves
(`src/useMovies.js` lines 31-48), including the `catch` (which skips
`setError` exactly when the error is an `AbortError`) and the `finally`
(which always runs `setIsLoading(false)`). -/
def applyOutcome (o : FetchOutcome) (s : SearchState) : SearchState :=
  match o with
  | .httpNotOk => { s with error := transportErrorMessage, isLoading := false }
  | .payload response search =>
      if response = "False" then
        { s with error := notFoundMessage, isLoading := false }
      else
        { s with movies := search, error := "", isLoading := false }
  | .aborted => { s with isLoading := false }

/-- The synchronous part of the `useMovies` effect body on a query change
(`src/useMovies.js` lines 52-63): if the query is shorter than 3 characters
it clears the movie list and the error and issues no fetch; otherwise
`fetchMovies()` runs synchronously up to its first `await`, setting
`isLoading` to true and clearing the error.  The returned flag records
whether a fetch was issued. -/
def effectStep (query : String) (s : SearchState) : SearchState × Bool :=
  if query.length < 3 then
    ({ s with movies := [], error := "" }, false)
  else
    ({ s with isLoading := true, error := "" }, true)

/-- An observable event of the search controller: either the query changes
(the effect re-runs, aborting any in-flight fetch), or some fetch attempt's
continuation resolves with an outcome.  A superseded or unmounted attempt
resolves with `FetchOutcome.aborted`. -/
inductive SearchEvent where
  | queryChange (query : String)
  | resolve (outcome : FetchOutcome)
deriving DecidableEq

/-- One step of the search controller's state under an event. -/
def stepEvent (s : SearchState) (e : SearchEvent) : SearchState :=
  match e with
  | .queryChange q => (effectStep q s).1
  | .resolve o => applyOutcome o s

/-- The hook state after a sequence of events, starting from the initial
hook state. -/
def runEvents (es : List SearchEvent) : SearchState :=
  es.foldl stepEvent initialSearchState

/-- Two search states agree on the user-visible pieces of state that claim
C1 is about: the movie list and the error string. -/
def obsEq (s t : SearchState) : Prop :=
  s.movies = t.movies ∧ s.error = t.error

/-- The event filter keeping every event except an aborted resolution. -/
def notAborted (e : SearchEvent) : Bool :=
  decide (e ≠ SearchEvent.resolve .aborted)

/-- The transport-failure case of a non-cancelled response: the outcome was
a non-OK transport response, and the state ends with the transport-failure
message as error and the movie list unchanged. -/
def transportCase (o : FetchOutcome) (s : SearchState) : Prop :=
  o = .httpNotOk ∧ (applyOutcome o s).error = transportErrorMessage ∧
    (applyOutcome o s).movies = s.movies ∧ (applyOutcome o s).isLoading = false

/-- The not-found case of a non-cancelled response: a payload arrived whose
`Response` field is `"False"`, and the state ends with the not-found
message as error and the movie list unchanged. -/
def notFoundCase (o : FetchOutcome) (s : SearchState) : Prop :=
  ∃ resp search, o = .payload resp search ∧ resp = "False" ∧
    (applyOutcome o s).error = notFoundMessage ∧
    (applyOutcome o s).movies = s.movies ∧ (applyOutcome o s).isLoading = false

/-- The success case of a non-cancelled response: a payload arrived whose
`Response` field is not `"False"`, the movie list becomes the payload's
`Search` list and the error is cleared. -/
def successCase (o : FetchOutcome) (s : SearchState) : Prop :=
  ∃ resp search, o = .payload resp search ∧ resp ≠ "False" ∧
    (applyOutcome o s).movies = search ∧ (applyOutcome o s).error = "" ∧
    (applyOutcome o s).isLoading = false

/-- Exactly one of the three cases of claim C3 holds. -/
def searchOutcomeTrichotomy (o : FetchOutcome) (s : SearchState) : Prop :=
  (transportCase o s ∨ notFoundCase o s ∨ successCase o s) ∧
    ¬(transportCase o s ∧ notFoundCase o s) ∧
    ¬(transportCase o s ∧ successCase o s) ∧
    ¬(notFoundCase o s ∧ successCase o s)

/-- A watched-list entry as built by `handleAdd` in `src/App.js`
lines 208-218.  The numeric fields are rationals (JavaScript numbers). -/
structure WatchedEntry where
  imdbID : String
  title : String
  year : String
  poster : String
  runtime : ℚ
  imdbRating : ℚ
  userRating : ℚ
  countRatingDecision : Nat
deriving DecidableEq

/-- `handleAddWatched` from `src/App.js` lines 39-41:
`setWatched((watched) => [...watched, movie])`. -/
def handleAddWatched (movie : WatchedEntry) (watched : List WatchedEntry) :
    List WatchedEntry :=
  watched ++ [movie]

/-- `handleDeleteWatched` from `src/App.js` lines 43-45:
`setWatched((watched) => watched.filter((movie) => movie.imdbID !== id))`. -/
def handleDeleteWatched (id : String) (watched : List WatchedEntry) :
    List WatchedEntry :=
  watched.filter (fun movie => movie.imdbID != id)

/-- `handleSelectMovie` from `src/App.js` lines 24-26:
`setSelectedId(() => (id === selectedId ? null : id))`.  The selection is
`Option String` (`none` is the JavaScript `null`); `id === selectedId` is
string equality, false when the selection is `null`. -/
def handleSelectMovie (id : String) (selectedId : Option String) :
    Option String :=
  if some id = selectedId then none else some id

/-- `average` from `src/App.js` line 11:
`(arr) => arr.reduce((acc, cur, i, arr) => acc + cur / arr.length, 0)`.
The reduce starts from 0 and iterates no element of an empty array, so the
division by `arr.length` is never evaluated there. -/
def average (arr : List ℚ) : ℚ :=
  arr.foldl (fun acc cur => acc + cur / arr.length) 0

/-- `avgImdbRating` from `src/App.js` line 332. -/
def avgImdbRating (watched : List WatchedEntry) : ℚ :=
  average (watched.map fun movie => movie.imdbRating)

/-- `avgUserRating` from `src/App.js` line 333. -/
def avgUserRating (watched : List WatchedEntry) : ℚ :=
  average (watched.map fun movie => movie.userRating)

/-- `avgRuntime` from `src/App.js` line 334. -/
def avgRuntime (watched : List WatchedEntry) : ℚ :=
  average (watched.map fun movie => movie.runtime)

/-- A watched entry with the given id and default fields, used only as a
concrete test value. -/
def mkEntry (id : String) : WatchedEntry :=
  { imdbID := id, title := "", year := "", poster := "", runtime := 0,
    imdbRating := 0, userRating := 0, countRatingDecision := 0 }

/-- A movie detail record as returned by the catalog detail endpoint and
held in the `movie` state of `MovieDetails` (`src/App.js` lines 191-202):
capitalized string fields straight from the API. -/
structure MovieDetail where
  Title : String
  Year : String
  Plot : String
  Poster : String
  Runtime : String
  imdbRating : String
  Released : String
  Actors : String
  Director : String
  Genre : String
deriving DecidableEq

/-- Splitting a character list at every occurrence of a separator, the
semantics of JavaScript `String.prototype.split` with a one-character
separator: the result always has at least one (possibly empty) piece. -/
def splitOnChar (sep : Char) : List Char → List (List Char)
  | [] => [[]]
  | c :: cs =>
      let r := splitOnChar sep cs
      if c = sep then [] :: r
      else (c :: r.headD []) :: r.tail

/-- The value of a digit list read in base 10. -/
def decDigits (cs : List Char) : Nat :=
  cs.foldl (fun a c => a * 10 + (c.toNat - 48)) 0

/-- Models the JavaScript unary `+` coercion of a string to a number, on
the decimal forms this application receives: the empty string coerces
to 0, a digit string to its value, and `digits.digits` to the decimal
value.  Any other form (such as `"N/A"`) coerces to `NaN`, modelled as
`none`. -/
def jsStringToNumber (s : String) : Option ℚ :=
  if s.isEmpty then some 0
  else
    match splitOnChar (Char.ofNat 46) s.data with
    | [ip] =>
        if ip.all Char.isDigit then some (decDigits ip) else none
    | [ip, fp] =>
        if !ip.isEmpty && ip.all Char.isDigit &&
            (!fp.isEmpty && fp.all Char.isDigit) then
          some ((decDigits ip : ℚ) + (decDigits fp : ℚ) / (10 : ℚ) ^ fp.length)
        else none
    | _ => none

/-- `handleAdd` from `src/App.js` lines 208-224: builds the new watched
entry from the selected identifier, the loaded detail record, the
committed user rating and the rating-decision counter.  The runtime is
`+runtime.split(" ").at(0)` and the rating is `+imdbRating`; a coercion
that would produce `NaN` in JavaScript yields `none` here. -/
def handleAdd (selectedId : String) (movie : MovieDetail) (userRating : ℚ)
    (countRatingDecision : Nat) : Option WatchedEntry :=
  match jsStringToNumber
          (String.mk ((splitOnChar (Char.ofNat 32) movie.Runtime.data).headD [])),
        jsStringToNumber movie.imdbRating with
  | some rt, some ir =>
      some { imdbID := selectedId, title := movie.Title, year := movie.Year,
             poster := movie.Poster, runtime := rt, imdbRating := ir,
             userRating := userRating,
             countRatingDecision := countRatingDecision }
  | _, _ => none

/-- The detail record of the spec's example scenario (§8.7), used only as
a concrete test value. -/
def sampleDetail : MovieDetail :=
  { Title := "Alien", Year := "1979", Plot := "", Poster := "p.jpg",
    Runtime := "117 min", imdbRating := "8.5", Released := "", Actors := "",
    Director := "", Genre := "" }

/- ------------------------------------------------------------------ -/
/- Theorems -/
/- ------------------------------------------------------------------ -/

theorem foldl_add_div (n : ℚ) :
    ∀ (l : List ℚ) (a : ℚ),
      l.foldl (fun acc cur => acc + cur / n) a = a + l.sum / n := by
  intro l
  induction l with
  | nil => intro a; simp
  | cons x xs ih =>
      intro a
      simp only [List.foldl_cons, List.sum_cons, ih, add_div]
      ring

theorem average_eq_sum_div (arr : List ℚ) :
    average arr = arr.sum / arr.length := by
  simp [average, foldl_add_div]

/-- C5: for the empty watched collection each of the three aggregates is
exactly 0 (the fold starts at 0 and iterates nothing, so no division by the
zero length is performed), and for every collection each aggregate equals
the per-element accumulation of `value / length` starting from 0 — which is
the sum of the values divided by the length. -/
theorem claim_C5 :
    (avgImdbRating [] = 0 ∧ avgUserRating [] = 0 ∧ avgRuntime [] = 0) ∧
    (∀ arr : List ℚ,
      average arr = arr.foldl (fun acc cur => acc + cur / (arr.length : ℚ)) 0 ∧
      average arr = arr.sum / arr.length) ∧
    (∀ watched : List WatchedEntry,
      avgImdbRating watched =
        (watched.map fun movie => movie.imdbRating).sum / watched.length ∧
      avgUserRating watched =
        (watched.map fun movie => movie.userRating).sum / watched.length ∧
      avgRuntime watched =
        (watched.map fun movie => movie.runtime).sum / watched.length) := by
  refine ⟨⟨rfl, rfl, rfl⟩, fun arr => ⟨rfl, average_eq_sum_div arr⟩, fun w => ?_⟩
  refine ⟨?_, ?_, ?_⟩ <;>
    simp [avgImdbRating, avgUserRating, avgRuntime, average_eq_sum_div]

/-- C6: deleting an identifier that occurs on exactly one entry of the
watched collection removes exactly that entry and leaves every other entry
unchanged, in its original relative order. -/
theorem claim_C6 (id : String) (l1 l2 : List WatchedEntry) (e : WatchedEntry)
    (he : e.imdbID = id)
    (h1 : ∀ x ∈ l1, x.imdbID ≠ id) (h2 : ∀ x ∈ l2, x.imdbID ≠ id) :
    handleDeleteWatched id (l1 ++ e :: l2) = l1 ++ l2 := by
  unfold handleDeleteWatched
  rw [List.filter_append, List.filter_cons]
  have hkeep1 : l1.filter (fun movie => movie.imdbID != id) = l1 :=
    List.filter_eq_self.mpr (by intro x hx; simpa using h1 x hx)
  have hkeep2 : l2.filter (fun movie => movie.imdbID != id) = l2 :=
    List.filter_eq_self.mpr (by intro x hx; simpa using h2 x hx)
  simp [he, hkeep1, hkeep2]

theorem claim_C6_witness :
    (mkEntry "b").imdbID = "b" ∧
    (∀ x ∈ [mkEntry "a"], x.imdbID ≠ "b") ∧
    (∀ x ∈ [mkEntry "c"], x.imdbID ≠ "b") ∧
    handleDeleteWatched "b" ([mkEntry "a"] ++ mkEntry "b" :: [mkEntry "c"]) =
      [mkEntry "a"] ++ [mkEntry "c"] :=
  ⟨rfl, by decide, by decide,
    claim_C6 "b" [mkEntry "a"] [mkEntry "c"] (mkEntry "b") rfl
      (by decide) (by decide)⟩

/-- C7: adding an entry appends it at the end unconditionally; in
particular adding an entry whose `imdbID` already occurs in the collection
keeps both the old and the new entry, and the number of entries carrying
that identifier grows by one — never a replacement or a rejection. -/
theorem claim_C7 (watched : List WatchedEntry) (m e : WatchedEntry)
    (he : e ∈ watched) (_hid : e.imdbID = m.imdbID) :
    handleAddWatched m watched = watched ++ [m] ∧
    e ∈ handleAddWatched m watched ∧
    m ∈ handleAddWatched m watched ∧
    (handleAddWatched m watched).length = watched.length + 1 ∧
    (handleAddWatched m watched).countP (fun x => x.imdbID == m.imdbID) =
      watched.countP (fun x => x.imdbID == m.imdbID) + 1 := by
  refine ⟨rfl, ?_, ?_, ?_, ?_⟩
  · exact List.mem_append_left _ he
  · exact List.mem_append_right _ (List.mem_singleton.mpr rfl)
  · simp [handleAddWatched]
  · simp [handleAddWatched, List.countP_append, List.countP_cons]

theorem claim_C7_witness :
    mkEntry "a" ∈ [mkEntry "a"] ∧
    (mkEntry "a").imdbID = (mkEntry "a").imdbID ∧
    handleAddWatched (mkEntry "a") [mkEntry "a"] =
      [mkEntry "a"] ++ [mkEntry "a"] ∧
    (handleAddWatched (mkEntry "a") [mkEntry "a"]).length = 2 :=
  ⟨by decide, rfl,
    (claim_C7 [mkEntry "a"] (mkEntry "a") (mkEntry "a") (by decide) rfl).1,
    (claim_C7 [mkEntry "a"] (mkEntry "a") (mkEntry "a") (by decide) rfl).2.2.2.1⟩

/-- C9: selecting the currently selected identifier toggles the selection
to `null`; selecting a different identifier sets the selection to it. -/
theorem claim_C9 (cur id : String) (h : id ≠ cur) :
    handleSelectMovie cur (some cur) = none ∧
    handleSelectMovie id (some cur) = some id := by
  constructor
  · simp [handleSelectMovie]
  · simp [handleSelectMovie, h]

theorem claim_C9_witness :
    ("tt2" : String) ≠ "tt1" ∧
    handleSelectMovie "tt1" (some "tt1") = none ∧
    handleSelectMovie "tt2" (some "tt1") = some "tt2" :=
  ⟨by decide, (claim_C9 "tt1" "tt2" (by decide)).1,
    (claim_C9 "tt1" "tt2" (by decide)).2⟩

/-- C10: deleting an identifier that is absent from every entry of the
watched collection returns the collection unchanged. -/
theorem claim_C10 (watched : List WatchedEntry) (id : String)
    (h : ∀ e ∈ watched, e.imdbID ≠ id) :
    handleDeleteWatched id watched = watched := by
  unfold handleDeleteWatched
  exact List.filter_eq_self.mpr (by intro x hx; simpa using h x hx)

theorem claim_C10_witness :
    (∀ e ∈ [mkEntry "a", mkEntry "b"], e.imdbID ≠ "z") ∧
    handleDeleteWatched "z" [mkEntry "a", mkEntry "b"] =
      [mkEntry "a", mkEntry "b"] :=
  ⟨by decide, claim_C10 [mkEntry "a", mkEntry "b"] "z" (by decide)⟩

theorem obsEq_trans {a b c : SearchState} (h1 : obsEq a b) (h2 : obsEq b c) :
    obsEq a c :=
  ⟨h1.1.trans h2.1, h1.2.trans h2.2⟩

theorem obsEq_aborted (s : SearchState) : obsEq (applyOutcome .aborted s) s :=
  ⟨rfl, rfl⟩

theorem obsEq_stepEvent {s t : SearchState} (h : obsEq s t) (e : SearchEvent) :
    obsEq (stepEvent s e) (stepEvent t e) := by
  obtain ⟨hm, he⟩ := h
  cases e with
  | queryChange q =>
      by_cases hq : q.length < 3 <;>
        simp [stepEvent, effectStep, hq, obsEq, hm, he]
  | resolve o =>
      cases o with
      | httpNotOk => exact ⟨hm, rfl⟩
      | payload resp search =>
          by_cases hr : resp = "False" <;>
            simp [stepEvent, applyOutcome, hr, obsEq, hm, he]
      | aborted => exact ⟨hm, he⟩

theorem runFrom_obsEq :
    ∀ (es : List SearchEvent) (s t : SearchState), obsEq s t →
      obsEq (es.foldl stepEvent s) ((es.filter notAborted).foldl stepEvent t) := by
  intro es
  induction es with
  | nil => intro s t h; simpa using h
  | cons e es ih =>
      intro s t h
      by_cases habort : e = SearchEvent.resolve .aborted
      · subst habort
        have hfilter : notAborted (SearchEvent.resolve .aborted) = false := by
          simp [notAborted]
        rw [List.filter_cons, hfilter]
        simp only [List.foldl_cons, Bool.false_eq_true, if_false]
        exact ih _ _ (obsEq_trans (obsEq_aborted s) h)
      · have hfilter : notAborted e = true := by
          simp [notAborted, habort]
        rw [List.filter_cons, hfilter]
        simp only [List.foldl_cons, if_true]
        exact ih _ _ (obsEq_stepEvent h e)

/-- C1: a superseded or unmounted fetch resolves as aborted, and an aborted
resolution never updates the error value and never updates the movie list:
it is a no-op on those two pieces of state, so over every sequence of
query changes and resolutions, dropping all aborted resolutions leaves
the movie list and the error unchanged. -/
theorem claim_C1 :
    (∀ s : SearchState,
      (applyOutcome .aborted s).movies = s.movies ∧
      (applyOutcome .aborted s).error = s.error) ∧
    (∀ es : List SearchEvent,
      (runEvents es).movies = (runEvents (es.filter notAborted)).movies ∧
      (runEvents es).error = (runEvents (es.filter notAborted)).error) :=
  ⟨fun _ => ⟨rfl, rfl⟩,
    fun es => runFrom_obsEq es initialSearchState initialSearchState ⟨rfl, rfl⟩⟩

/-- C2: on a query of fewer than 3 characters, the effect clears the movie
list, clears the error, and issues no fetch. -/
theorem claim_C2 (q : String) (s : SearchState) (h : q.length < 3) :
    (effectStep q s).1.movies = [] ∧ (effectStep q s).1.error = "" ∧
    (effectStep q s).2 = false := by
  simp [effectStep, h]

theorem claim_C2_witness :
    ("ab" : String).length < 3 ∧
    ((effectStep "ab" initialSearchState).1.movies = [] ∧
     (effectStep "ab" initialSearchState).1.error = "" ∧
     (effectStep "ab" initialSearchState).2 = false) :=
  ⟨by decide, claim_C2 "ab" initialSearchState (by decide)⟩

/-- C3: a non-cancelled response lands in exactly one of three cases:
transport failure (error set to the transport message, movies unchanged),
not-found (payload `Response` is `"False"`, error set to the not-found
message, movies unchanged), or success (movies set to the payload's
`Search` list, error cleared). -/
theorem claim_C3 (o : FetchOutcome) (s : SearchState) (h : o ≠ .aborted) :
    searchOutcomeTrichotomy o s := by
  cases o with
  | aborted => exact absurd rfl h
  | httpNotOk =>
      refine ⟨Or.inl ⟨rfl, rfl, rfl, rfl⟩, ?_, ?_, ?_⟩
      · rintro ⟨-, r, l, hcontra, -⟩; cases hcontra
      · rintro ⟨-, r, l, hcontra, -⟩; cases hcontra
      · rintro ⟨⟨r, l, hcontra, -⟩, -⟩; cases hcontra
  | payload resp search =>
      have hexcl1 : ¬transportCase (.payload resp search) s := by
        rintro ⟨hcontra, -⟩; cases hcontra
      by_cases hr : resp = "False"
      · refine ⟨Or.inr (Or.inl ⟨resp, search, rfl, hr, ?_, ?_, ?_⟩),
          fun hc => hexcl1 hc.1, fun hc => hexcl1 hc.1, ?_⟩
        · simp [applyOutcome, hr]
        · simp [applyOutcome, hr]
        · simp [applyOutcome, hr]
        · rintro ⟨-, r2, l2, heq2, hr2, -⟩
          injection heq2 with hresp2 hsearch2
          exact hr2 (hresp2 ▸ hr)
      · refine ⟨Or.inr (Or.inr ⟨resp, search, rfl, hr, ?_, ?_, ?_⟩),
          fun hc => hexcl1 hc.1, fun hc => hexcl1 hc.1, ?_⟩
        · simp [applyOutcome, hr]
        · simp [applyOutcome, hr]
        · simp [applyOutcome, hr]
        · rintro ⟨⟨r1, l1, heq1, hr1, -⟩, -⟩
          injection heq1 with hresp1 hsearch1
          exact hr (hresp1 ▸ hr1)

theorem claim_C3_witness :
    (FetchOutcome.payload "True" [] ≠ FetchOutcome.aborted) ∧
    searchOutcomeTrichotomy (FetchOutcome.payload "True" []) initialSearchState :=
  ⟨by decide,
    claim_C3 (FetchOutcome.payload "True" []) initialSearchState (by decide)⟩

theorem applyOutcome_isLoading (o : FetchOutcome) (s : SearchState) :
    (applyOutcome o s).isLoading = false := by
  cases o with
  | httpNotOk => rfl
  | payload resp search =>
      by_cases hr : resp = "False" <;> simp [applyOutcome, hr]
  | aborted => rfl

/-- C4: every terminal outcome of a fetch attempt — success, error, or
benign cancellation — clears the Loading flag; a fetch attempt that is
issued begins with the Loading flag set, so each attempt undergoes exactly
one Loading-to-non-Loading transition, at its resolution; hence after any
event interleaving in which all attempts have resolved (the trace ends
with a resolution), Loading is false. -/
theorem claim_C4 (q : String) (s s' : SearchState) (o o' : FetchOutcome)
    (es : List SearchEvent) (h : ¬ q.length < 3) :
    (applyOutcome o s').isLoading = false ∧
    ((effectStep q s).1.isLoading = true ∧ (effectStep q s).2 = true) ∧
    (runEvents (es ++ [SearchEvent.resolve o'])).isLoading = false := by
  refine ⟨applyOutcome_isLoading o s', ?_, ?_⟩
  · simp [effectStep, h]
  · simp [runEvents, List.foldl_append, stepEvent, applyOutcome_isLoading]

theorem claim_C4_witness :
    ¬(("abc" : String).length < 3) ∧
    ((applyOutcome .aborted initialSearchState).isLoading = false ∧
     ((effectStep "abc" initialSearchState).1.isLoading = true ∧
      (effectStep "abc" initialSearchState).2 = true) ∧
     (runEvents ([] ++ [SearchEvent.resolve .httpNotOk])).isLoading = false) :=
  ⟨by decide,
    claim_C4 "abc" initialSearchState initialSearchState .aborted .httpNotOk []
      (by decide)⟩

/-- C8: committing a rating on a loaded detail adds a watched entry whose
runtime is the number read from the leading token of the detail's
`Runtime` string, whose imdbRating is the numeric value of the detail's
`imdbRating` string, whose userRating is the committed rating and whose
imdbID is the selected identifier. -/
theorem claim_C8 (selectedId : String) (movie : MovieDetail) (userRating : ℚ)
    (count : Nat) (rt ir : ℚ)
    (hrt : jsStringToNumber
      (String.mk ((splitOnChar (Char.ofNat 32) movie.Runtime.data).headD [])) =
        some rt)
    (hir : jsStringToNumber movie.imdbRating = some ir) :
    handleAdd selectedId movie userRating count =
      some { imdbID := selectedId, title := movie.Title, year := movie.Year,
             poster := movie.Poster, runtime := rt, imdbRating := ir,
             userRating := userRating, countRatingDecision := count } := by
  unfold handleAdd
  rw [hrt, hir]

theorem claim_C8_witness :
    jsStringToNumber
      (String.mk ((splitOnChar (Char.ofNat 32) sampleDetail.Runtime.data).headD [])) =
        some 117 ∧
    jsStringToNumber sampleDetail.imdbRating = some (17 / 2) ∧
    handleAdd "tt1" sampleDetail 9 1 =
      some { imdbID := "tt1", title := "Alien", year := "1979",
             poster := "p.jpg", runtime := 117, imdbRating := 17 / 2,
             userRating := 9, countRatingDecision := 1 } := by
  have hrt : jsStringToNumber
      (String.mk ((splitOnChar (Char.ofNat 32) sampleDetail.Runtime.data).headD [])) =
        some 117 := by decide
  have hir : jsStringToNumber sampleDetail.imdbRating = some (17 / 2) := by
    have hstep : jsStringToNumber sampleDetail.imdbRating =
        some ((decDigits [Char.ofNat 56] : ℚ) +
          (decDigits [Char.ofNat 53] : ℚ) /
            (10 : ℚ) ^ ([Char.ofNat 53] : List Char).length) := rfl
    have h8 : (Char.ofNat 56).toNat = 56 := rfl
    have h5 : (Char.ofNat 53).toNat = 53 := rfl
    rw [hstep]
    norm_num [decDigits, h8, h5]
  exact ⟨hrt, hir, claim_C8 "tt1" sampleDetail 9 1 117 (17 / 2) hrt hir⟩

end UsePopcorn
